import Mathlib

/-!
Verification of the stock-ai-advisor batch price-refresh and daily-analysis
pipeline.  Prices are modelled as rationals; the external market-data API,
the store, the LLM and the email sink are modelled as explicit outcome
parameters, so every function of the pipeline becomes a pure, executable
Lean function translated from the TypeScript source.
-/

namespace StockAdvisor

/-- Raw quote payload returned by the Finnhub `/quote` endpoint
(`c` current, `d` change, `dp` percent change, `h` high, `l` low,
`o` open, `pc` previous close, `t` timestamp). -/
structure FinnhubQuote where
  c : ℚ
  d : ℚ
  dp : ℚ
  h : ℚ
  l : ℚ
  o : ℚ
  pc : ℚ
  t : Nat
deriving DecidableEq, Repr

namespace Finnhub

/-- `StockData` record of `src/lib/finnhub-service.ts`. -/
structure StockData where
  symbol : String
  name : String
  currentPrice : ℚ
  openPrice : ℚ
  highPrice : ℚ
  lowPrice : ℚ
  previousClose : ℚ
  priceChange : ℚ
  percentChange : ℚ
  timestamp : Nat
deriving DecidableEq, Repr

/-- The record `getBatchQuotes` builds from a successful `getQuote` response
(finnhub-service.ts, lines 117-128). -/
def quoteToStockData (symbol : String) (q : FinnhubQuote) : StockData :=
  ⟨symbol, symbol, q.c, q.o, q.h, q.l, q.pc, q.d, q.dp, q.t⟩

/-- `getBatchQuotes` of finnhub-service.ts: one `getQuote` call per symbol in
list order; a symbol whose `getQuote` returns null is simply not inserted
into the result map; the loop never aborts early.  The upstream outcome of
each call is supplied by `outcome` (null models every failure: non-2xx
status, network error, or malformed body). -/
def getBatchQuotes (outcome : String → Option FinnhubQuote) :
    List String → List (String × StockData)
  | [] => []
  | s :: rest =>
    match outcome s with
    | some q => (s, quoteToStockData s q) :: getBatchQuotes outcome rest
    | none => getBatchQuotes outcome rest

/-- Default pacing delay of `getBatchQuotes` (`delayMs = 50`). -/
def defaultDelayMs : Nat := 50

/-- Time (ms from batch start) of the i-th upstream call made by
`getBatchQuotes`: the i previous calls each took `lat` ms of network latency
and were each followed by a `delayMs` pause. -/
def gbqCallTimes (lat : Nat → Nat) (n delayMs : Nat) : List Nat :=
  (List.range n).map (fun i => ((List.range i).map lat).sum + i * delayMs)

/-- Number of call timestamps falling inside the rolling window
`[start, start + winLen)`. -/
def callsWithin (times : List Nat) (start winLen : Nat) : Nat :=
  times.countP (fun t => start ≤ t && t < start + winLen)

end Finnhub

/-- Outcome of one upstream `fetch` of the quote endpoint, as seen by the
batch-update lambdas: a non-2xx HTTP status, a thrown network/JSON error, or
a parsed JSON body. -/
inductive FetchOutcome where
  | httpError (status : Nat)
  | netError
  | okJson (q : FinnhubQuote)
deriving DecidableEq, Repr

/- The EventBridge batch-update lambda bundled in part_011 (first file):
the Amplify-data variant. -/
namespace AmplifyBatch

/-- `StockPrice` record of the batch-update lambdas. -/
structure StockPrice where
  symbol : String
  price : ℚ
  change : ℚ
  changePercent : ℚ
  volume : ℚ
  marketCap : Option ℚ
  high : ℚ
  low : ℚ
  openPrice : ℚ
  previousClose : ℚ
deriving DecidableEq, Repr

/-- `getMockStockPrice` (part_011, lines 64-82): `r1`, `r2` are the two
`Math.random()` draws, so `basePrice = r1*500+50` and
`change = (r2-0.5)*10`; the volume and market-cap draws are irrelevant to
the price fields and are modelled as zero. -/
def getMockStockPrice (symbol : String) (r1 r2 : ℚ) : StockPrice :=
  let basePrice : ℚ := r1 * 500 + 50
  let change : ℚ := (r2 - 1/2) * 10
  { symbol := symbol
    price := basePrice
    previousClose := basePrice - change
    change := change
    changePercent := change / basePrice * 100
    volume := 0
    marketCap := some 0
    high := basePrice + |change|
    low := basePrice - |change|
    openPrice := basePrice - change / 2 }

/-- `fetchStockPrice` (part_011, lines 26-62).  A non-ok HTTP status throws
and the catch block substitutes a mock record; a thrown network error does
the same; a parsed body with a truthy `c` yields the real record; a body
with `c == 0` (falsy) yields null. -/
def fetchStockPrice (symbol : String) (out : FetchOutcome) (r1 r2 : ℚ) :
    Option StockPrice :=
  match out with
  | .httpError _ => some (getMockStockPrice symbol r1 r2)
  | .netError => some (getMockStockPrice symbol r1 r2)
  | .okJson q =>
      if q.c ≠ 0 then
        some { symbol := symbol, price := q.c, previousClose := q.pc,
               change := q.d, changePercent := q.dp, volume := 0,
               marketCap := none, high := q.h, low := q.l, openPrice := q.o }
      else none

/-- An upstream outcome on which `fetchStockPrice` fails to obtain a real
quote: a thrown/HTTP error, or a response whose current price `c` is zero
or absent (falsy). -/
def isFailure : FetchOutcome → Prop
  | .httpError _ => True
  | .netError => True
  | .okJson q => q.c = 0

instance : DecidablePred isFailure := fun out =>
  match out with
  | .httpError _ => inferInstanceAs (Decidable True)
  | .netError => inferInstanceAs (Decidable True)
  | .okJson q => inferInstanceAs (Decidable (q.c = 0))

/-- The claim that `fetchStockPrice` handles every failed symbol with one
uniform policy: either every failure is skipped (null) or every failure
yields a synthesized placeholder record. -/
def uniformFailurePolicy : Prop :=
  (∀ out r1 r2, isFailure out → fetchStockPrice "S" out r1 r2 = none) ∨
  (∀ out r1 r2, isFailure out → (fetchStockPrice "S" out r1 r2).isSome = true)

end AmplifyBatch

/- The DynamoDB batch-update lambda bundled in part_011 (second file):
the scheduled refresh with the market-summary sampling pass.  Its
summary/handler logic coincides with the part_010 (Yahoo-API) handler. -/
namespace FinnhubBatch

/-- The independent random draws of the mock fallback of `fetchStockPrice`
(part_011, lines 242-254): price, change, changePercent, high, low, open
and previousClose are each drawn separately. -/
structure MockDraws where
  price : ℚ
  change : ℚ
  changePercent : ℚ
  volume : ℚ
  high : ℚ
  low : ℚ
  openPrice : ℚ
  previousClose : ℚ
deriving DecidableEq, Repr

/-- `fetchStockPrice` (part_011, lines 209-255): a parsed body with truthy
`c` yields the real record; every other path (HTTP error, thrown error, or
falsy `c`) falls through to the mock record, so the function never returns
null. -/
def fetchStockPrice (symbol : String) (out : FetchOutcome) (d : MockDraws) :
    Option AmplifyBatch.StockPrice :=
  match out with
  | .okJson q =>
      if q.c ≠ 0 then
        some { symbol := symbol, price := q.c, previousClose := q.pc,
               change := q.d, changePercent := q.dp, volume := 0,
               marketCap := none, high := q.h, low := q.l, openPrice := q.o }
      else
        some { symbol := symbol, price := d.price, change := d.change,
               changePercent := d.changePercent, volume := d.volume,
               marketCap := none, high := d.high, low := d.low,
               openPrice := d.openPrice, previousClose := d.previousClose }
  | _ =>
      some { symbol := symbol, price := d.price, change := d.change,
             changePercent := d.changePercent, volume := d.volume,
             marketCap := none, high := d.high, low := d.low,
             openPrice := d.openPrice, previousClose := d.previousClose }

/-- The list of prices collected by `batchUpdatePrices` (part_011, lines
257-275): every symbol of the universe is fetched and the non-null results
are kept.  `fetchR` gives each symbol's resolved fetch result. -/
def batchFetchResults (fetchR : String → Option AmplifyBatch.StockPrice)
    (syms : List String) : List AmplifyBatch.StockPrice :=
  syms.filterMap fetchR

/-- `SP500_SUMMARY` record written by the scheduled handler. -/
structure Summary where
  totalStocks : Nat
  gainers : Nat
  losers : Nat
  unchanged : Nat
deriving DecidableEq, Repr

/-- The market-summary computation of the scheduled handler (part_011,
lines 324-347 and part_010, lines 134-157): re-fetch only the first 30
symbols of the universe, keep the non-null results, and count those with
positive / negative / zero percent change; `totalStocks` records the size
of the full universe. -/
def summaryOfRun (fetchR : String → Option AmplifyBatch.StockPrice)
    (syms : List String) : Summary :=
  let validPrices := (syms.take 30).filterMap fetchR
  { totalStocks := syms.length
    gainers := validPrices.countP (fun p => decide (0 < p.changePercent))
    losers := validPrices.countP (fun p => decide (p.changePercent < 0))
    unchanged := validPrices.countP (fun p => decide (p.changePercent = 0)) }

/-- Call timeline (ms, zero network latency) of one scheduled-handler run
(part_011, lines 313-347): `batchUpdatePrices` issues one paced call per
universe symbol with a 1100 ms delay after each, then the sampling pass
issues `min 30 n` concurrent calls at once. -/
def handlerCallTimes (n : Nat) : List Nat :=
  (List.range n).map (fun k => k * 1100) ++ List.replicate (min 30 n) (n * 1100)

end FinnhubBatch

/- The Yahoo-API batch-update lambda (part_010). -/
namespace YahooBatch

/-- The fields of `data.chart.result[0].meta` that `fetchStockPrice`
consumes (part_010, lines 31-49). -/
structure YahooMeta where
  previousClose : ℚ
  chartPreviousClose : ℚ
  regularMarketPrice : ℚ
  regularMarketVolume : ℚ
  marketCap : ℚ
  regularMarketDayHigh : ℚ
  regularMarketDayLow : ℚ
  regularMarketOpen : ℚ
deriving DecidableEq, Repr

/-- JS `a || b` on numbers: `a` unless `a` is falsy (zero). -/
def jsOr (a b : ℚ) : ℚ := if a ≠ 0 then a else b

/-- The record built on `fetchStockPrice`'s success path (part_010, lines
37-49): `previousClose = meta.previousClose || meta.chartPreviousClose`,
`change = currentPrice - previousClose` and
`changePercent = ((currentPrice - previousClose) / previousClose) * 100`. -/
def fetchedQuote (symbol : String) (m : YahooMeta) : AmplifyBatch.StockPrice :=
  let previousClose := jsOr m.previousClose m.chartPreviousClose
  let currentPrice := m.regularMarketPrice
  { symbol := symbol
    price := currentPrice
    previousClose := previousClose
    change := currentPrice - previousClose
    changePercent := (currentPrice - previousClose) / previousClose * 100
    volume := jsOr m.regularMarketVolume 0
    marketCap := some (jsOr m.marketCap 0)
    high := jsOr m.regularMarketDayHigh currentPrice
    low := jsOr m.regularMarketDayLow currentPrice
    openPrice := jsOr m.regularMarketOpen previousClose }

end YahooBatch

/- The daily-analysis orchestrator
(src/amplify/functions/daily-analysis-orchestrator/handler.ts). -/
namespace Orchestrator

/-- `UserPreference` record scanned by the orchestrator. -/
structure UserPreference where
  userId : String
  email : String
  dailyInsightsOptIn : Bool
  selectedStocks : List String
deriving DecidableEq, Repr

/-- The DynamoDB scan filter of `getUsersForDailyAnalysis` (handler.ts,
line 95): `dailyInsightsOptIn = true AND size(selectedStocks) > 0`. -/
def eligible (u : UserPreference) : Bool :=
  u.dailyInsightsOptIn && !u.selectedStocks.isEmpty

/-- `getUsersForDailyAnalysis` (handler.ts, lines 88-113): the do-while scan
loop follows `LastEvaluatedKey` through every page of the store result set,
the filter being applied to each page, and accumulates the matches. -/
def getUsersForDailyAnalysis : List (List UserPreference) → List UserPreference
  | [] => []
  | page :: rest => page.filter eligible ++ getUsersForDailyAnalysis rest

/-- One SQS message body built by the handler (handler.ts, lines 44-59). -/
structure SqsMessage where
  id : String
  userId : String
  email : String
  selectedStocks : List String
  timestamp : String
deriving DecidableEq, Repr

def mkMessage (now : String) (u : UserPreference) : SqsMessage :=
  ⟨u.userId, u.userId, u.email, u.selectedStocks, now⟩

/-- `createBatches` (handler.ts, lines 115-121): slice the array into
consecutive chunks of `batchSize`.  (The source loop would not terminate on
`batchSize = 0`; the model returns no batches there, a case the handler
never exercises since it always passes 10.) -/
def createBatches (l : List α) (n : Nat) : List (List α) :=
  if h : l.isEmpty = true ∨ n = 0 then []
  else l.take n :: createBatches (l.drop n) n
termination_by l.length
decreasing_by
  push_neg at h
  simp only [List.length_drop]
  have hl : 0 < l.length := by
    cases l with
    | nil => simp at h
    | cons a t => simp
  omega

/-- The batched `SendMessageBatch` submissions of one orchestrator run
(handler.ts, lines 39-66): eligible users gathered over all pages, chunked
ten to a batch, one message per user. -/
def sentBatches (now : String) (pages : List (List UserPreference)) :
    List (List SqsMessage) :=
  (createBatches (getUsersForDailyAnalysis pages) 10).map (·.map (mkMessage now))

/-- All messages enqueued by one orchestrator run, in submission order. -/
def enqueuedMessages (now : String) (pages : List (List UserPreference)) :
    List SqsMessage :=
  (sentBatches now pages).flatten

end Orchestrator

/- The analysis queue configuration (src/amplify/backend-sqs.ts) and the
worker resource declaration (part_016). -/
namespace AnalysisQueue

structure QueueConfig where
  visibilityTimeoutSeconds : Nat
  retentionDays : Nat
  dlqRetentionDays : Nat
  maxReceiveCount : Nat
  batchSize : Nat
deriving DecidableEq, Repr

/-- `userAnalysisQueue` (backend-sqs.ts, lines 26-46): visibility timeout
360 s, retention 1 day, dead-letter queue with 7-day retention after
`maxReceiveCount = 3`, consumed with `batchSize = 1`. -/
def userAnalysisQueue : QueueConfig :=
  { visibilityTimeoutSeconds := 360
    retentionDays := 1
    dlqRetentionDays := 7
    maxReceiveCount := 3
    batchSize := 1 }

/-- `timeoutSeconds` of the daily-analysis worker (part_016, line 6). -/
def workerTimeoutSeconds : Nat := 300

/-- State of one queue message: how often it has been delivered, and
whether it has been moved to the dead-letter queue. -/
structure MsgState where
  deliveries : Nat
  inDlq : Bool
deriving DecidableEq, Repr

def initialMsg : MsgState := ⟨0, false⟩

/-- Modelled from the spec: the queue implementation itself is the managed
SQS service, not code under src/ — only its configuration is.  Per the
spec's queue semantics (at-least-once delivery; a message whose processing
fails is redelivered until it has been received `maxReceiveCount` times and
is then routed to the dead-letter queue), one failed delivery attempt
increments the receive count and moves the message to the DLQ once the
count reaches the configured `maxReceiveCount`; a dead-lettered message is
never delivered to the worker again. -/
def failedAttemptStep (cfg : QueueConfig) (s : MsgState) : MsgState :=
  if s.inDlq then s
  else ⟨s.deliveries + 1, cfg.maxReceiveCount ≤ s.deliveries + 1⟩

/-- The message state after `k` delivery attempts on a message whose
processing throws every time. -/
def runFailedAttempts (cfg : QueueConfig) : Nat → MsgState
  | 0 => initialMsg
  | k + 1 => failedAttemptStep cfg (runFailedAttempts cfg k)

end AnalysisQueue

/-- One SQS record as seen by the workers. -/
structure SQSRecord where
  messageId : String
  userId : String
  email : String
  selectedStocks : List String
deriving DecidableEq, Repr

/-- A thrown JS exception, as an explicit error value. -/
inductive JsError where
  | typeError
  | thrown (msg : String)
deriving DecidableEq, Repr

/- The DynamoDB/SES daily-analysis worker (part_018). -/
namespace Worker18

/-- The persisted market-data item consumed by `fetchStockData`. -/
structure MarketItem where
  currentPrice : ℚ
  previousClose : ℚ
  volume : ℚ
  dayHigh : ℚ
  dayLow : ℚ
  marketCap : ℚ
deriving DecidableEq, Repr

/-- The `StockData` shape of part_018 (lines 26-35). -/
structure StockData where
  symbol : String
  currentPrice : ℚ
  previousClose : ℚ
  changePercent : ℚ
  volume : ℚ
  high : ℚ
  low : ℚ
  marketCap : ℚ
deriving DecidableEq, Repr

/-- `fetchStockData` (part_018, lines 89-114): BatchGet the user's symbols,
keep the items found, and compute
`changePercent = ((currentPrice - previousClose) / previousClose) * 100`. -/
def fetchStockData (store : String → Option MarketItem)
    (symbols : List String) : List StockData :=
  symbols.filterMap fun s =>
    (store s).map fun item =>
      ⟨s, item.currentPrice, item.previousClose,
       (item.currentPrice - item.previousClose) / item.previousClose * 100,
       item.volume, item.dayHigh, item.dayLow, item.marketCap⟩

/-- JS `Array.prototype.reduce` with no initial value: throws a TypeError
on an empty array, otherwise folds from the first element. -/
def reduceNoInit (f : α → α → α) : List α → Except JsError α
  | [] => .error .typeError
  | x :: xs => .ok (xs.foldl f x)

/-- The reducer of the `topGainer` computation (part_018, lines 117-119):
keep `prev` when its changePercent is strictly greater, else `cur`. -/
def pickGainer (prev cur : StockData) : StockData :=
  if cur.changePercent < prev.changePercent then prev else cur

/-- The reducer of the `topLoser` computation (part_018, lines 121-123):
keep `prev` when its changePercent is strictly smaller, else `cur`. -/
def pickLoser (prev cur : StockData) : StockData :=
  if prev.changePercent < cur.changePercent then prev else cur

/-- External collaborator outcomes of one task: the LLM completion, the
history PutItem, and the SES SendEmail. -/
structure ExternalOutcomes where
  llm : Except JsError String
  save : Except JsError Unit
  email : Except JsError Unit
deriving Repr

/-- `generatePortfolioAnalysis` (part_018, lines 116-151): reduce the
resolved quotes to the top gainer and top loser (throwing on an empty
array), build the prompt, and return the LLM completion (or its thrown
error). -/
def generatePortfolioAnalysis (llm : Except JsError String)
    (stockData : List StockData) : Except JsError String := do
  let _topGainer ← reduceNoInit pickGainer stockData
  let _topLoser ← reduceNoInit pickLoser stockData
  llm

/-- The `AnalysisHistory` item written by `saveAnalysisHistory` (part_018,
lines 153-171). -/
structure HistoryItem where
  userId : String
  analysisText : String
  stocksAnalyzed : Nat
  topGainer : String
  topLoser : String
deriving DecidableEq, Repr

/-- `saveAnalysisHistory` (part_018, lines 153-171): recompute top gainer
and loser by the same reductions and put the item (or propagate the write's
thrown error). -/
def saveAnalysisHistory (save : Except JsError Unit) (userId : String)
    (analysisText : String) (stockData : List StockData) :
    Except JsError HistoryItem := do
  let g ← reduceNoInit pickGainer stockData
  let l ← reduceNoInit pickLoser stockData
  let _ ← save
  .ok ⟨userId, analysisText, stockData.length, g.symbol, l.symbol⟩

/-- `sendAnalysisEmail` (part_018, lines 173-247): recompute top gainer and
loser for the email body, then send; a thrown SES error propagates. -/
def sendAnalysisEmail (email : Except JsError Unit)
    (stockData : List StockData) : Except JsError Unit := do
  let _g ← reduceNoInit pickGainer stockData
  let _l ← reduceNoInit pickLoser stockData
  email

/-- Result value of a successful `processUserAnalysis` (part_018, lines
82-86). -/
structure TaskResult where
  userId : String
  stocksAnalyzed : Nat
  emailSent : Bool
deriving DecidableEq, Repr

/-- `processUserAnalysis` (part_018, lines 66-87): fetch the user's stock
data, generate the analysis, save the history record, send the email, and
only then report success with `emailSent = true`; any step's thrown error
propagates. -/
def processUserAnalysis (store : String → Option MarketItem)
    (ext : ExternalOutcomes) (r : SQSRecord) : Except JsError TaskResult := do
  let stockData := fetchStockData store r.selectedStocks
  let analysisText ← generatePortfolioAnalysis ext.llm stockData
  let _hist ← saveAnalysisHistory ext.save r.userId analysisText stockData
  let _ ← sendAnalysisEmail ext.email stockData
  .ok ⟨r.userId, r.selectedStocks.length, true⟩

/-- The handler loop (part_018, lines 37-64): process each record, catch
its exception, and report the failed message ids as `batchItemFailures` so
they become visible again for redelivery. -/
def handlerBatchItemFailures (store : String → Option MarketItem)
    (ext : ExternalOutcomes) (records : List SQSRecord) : List String :=
  records.filterMap fun r =>
    match processUserAnalysis store ext r with
    | .ok _ => none
    | .error _ => some r.messageId

end Worker18

/- The Amplify-data daily-analysis worker (part_017). -/
namespace Worker17

/-- The fields of a `MarketData` item that part_017's record construction
reads. -/
structure MDItem where
  symbol : String
  percentChange24h : ℚ
deriving DecidableEq, Repr

/-- The `AnalysisHistory` record created by part_017 (lines 84-92):
`topGainer` is `validStockData[0]?.symbol` and `topLoser` is
`validStockData[validStockData.length - 1]?.symbol` — positional, not
computed from changePercent. -/
structure HistoryRecord where
  userId : String
  stocksAnalyzed : Nat
  topGainer : Option String
  topLoser : Option String
  emailSent : Bool
deriving DecidableEq, Repr

def mkHistoryRecord (userId : String) (selectedCount : Nat)
    (validStockData : List MDItem) : HistoryRecord :=
  ⟨userId, selectedCount,
   validStockData.head?.map (·.symbol),
   validStockData.getLast?.map (·.symbol),
   false⟩

/-- `processUserAnalysis` (part_017, lines 52-123): resolve each selected
symbol against the store, return success immediately when zero resolve,
otherwise create the history record (with `emailSent = false`) and finish —
step 5 only logs that an email would be sent, so the list of emails
actually sent is empty and the task is still acknowledged as successful.
`createOutcome` is the store write's outcome; its thrown error is re-thrown
(lines 119-122).  The result pairs the created record (if any) with the
list of emails sent. -/
def processUserAnalysis (store : String → Option MDItem)
    (createOutcome : Except JsError Unit) (r : SQSRecord) :
    Except JsError (Option HistoryRecord × List String) := do
  let validStockData := r.selectedStocks.filterMap store
  if validStockData.isEmpty then
    .ok (none, [])
  else do
    let _ ← createOutcome
    .ok (some (mkHistoryRecord r.userId r.selectedStocks.length validStockData), [])

end Worker17

/- The rule-based fallback of the get-ai-recommendation lambda
(src/amplify/functions/get-ai-recommendation/handler.ts). -/
namespace Recommendation

inductive Rec where
  | STRONG_BUY
  | BUY
  | HOLD
  | SELL
  | STRONG_SELL
deriving DecidableEq, Repr

inductive RiskLevel where
  | LOW
  | MEDIUM
  | HIGH
  | VERY_HIGH
deriving DecidableEq, Repr

inductive RiskProfile where
  | CONSERVATIVE
  | MODERATE
  | AGGRESSIVE
deriving DecidableEq, Repr

open Rec RiskLevel

/-- The threshold chain of `generateRuleBasedRecommendation` (handler.ts,
lines 205-223), before the risk-profile adjustment: recommendation,
confidence score and risk level as functions of `percentChange`. -/
def baseRecommendation (percentChange : ℚ) : Rec × Nat × RiskLevel :=
  if 5 < percentChange then (SELL, 65, HIGH)
  else if 2 < percentChange then (HOLD, 60, MEDIUM)
  else if percentChange < -5 then (BUY, 70, HIGH)
  else if percentChange < -2 then (BUY, 65, MEDIUM)
  else (HOLD, 50, MEDIUM)

/-- The risk-profile adjustment (handler.ts, lines 226-233): two sequential
rewrites of the recommendation per profile. -/
def adjustForRiskProfile (profile : RiskProfile) (r : Rec) : Rec :=
  match profile with
  | .CONSERVATIVE =>
      let r1 := if r = BUY then HOLD else r
      if r1 = STRONG_BUY then BUY else r1
  | .AGGRESSIVE =>
      let r1 := if r = BUY then STRONG_BUY else r
      if r1 = SELL then HOLD else r1
  | .MODERATE => r

/-- `generateRuleBasedRecommendation`'s recommendation output (handler.ts,
lines 196-266): threshold chain, then profile adjustment.  The
`percentChange` argument is `marketData?.percentChange24h || 0`. -/
def generateRuleBasedRecommendation (percentChange : ℚ)
    (profile : RiskProfile) : Rec :=
  adjustForRiskProfile profile (baseRecommendation percentChange).1

end Recommendation

/-! ## Helper lemmas -/

/-- Closed form of the failing-message run under the deployed queue
configuration: the first three attempts deliver the message, after which it
sits in the dead-letter queue with exactly three deliveries on record. -/
lemma runFailedAttempts_closed_form (k : Nat) :
    AnalysisQueue.runFailedAttempts AnalysisQueue.userAnalysisQueue k =
      if k < 3 then ⟨k, false⟩ else ⟨3, true⟩ := by
  induction k with
  | zero => simp [AnalysisQueue.runFailedAttempts, AnalysisQueue.initialMsg]
  | succ k ih =>
    rw [AnalysisQueue.runFailedAttempts, ih]
    rcases Nat.lt_trichotomy k 2 with h | h | h
    · have h1 : k < 3 := by omega
      have h2 : k + 1 < 3 := by omega
      simp [h1, h2, AnalysisQueue.failedAttemptStep,
        AnalysisQueue.userAnalysisQueue]
      omega
    · subst h
      simp [AnalysisQueue.failedAttemptStep, AnalysisQueue.userAnalysisQueue]
    · have h1 : ¬ k < 3 := by omega
      have h2 : ¬ k + 1 < 3 := by omega
      simp [h1, h2, AnalysisQueue.failedAttemptStep]

/-! ## Claims -/

/-- C9: the deterministic rule-based fallback maps percent change +6.0 to
SELL, -6.0 to BUY, and 0.5 to HOLD, before any risk-profile adjustment
(thresholds: above +5 percent yields SELL, below -5 percent yields BUY,
else HOLD); with the neutral profile the adjusted output agrees. -/
theorem c9_rule_based_thresholds :
    (Recommendation.baseRecommendation 6).1 = Recommendation.Rec.SELL
    ∧ (Recommendation.baseRecommendation (-6)).1 = Recommendation.Rec.BUY
    ∧ (Recommendation.baseRecommendation (1/2)).1 = Recommendation.Rec.HOLD
    ∧ Recommendation.generateRuleBasedRecommendation 6
        Recommendation.RiskProfile.MODERATE = Recommendation.Rec.SELL
    ∧ Recommendation.generateRuleBasedRecommendation (-6)
        Recommendation.RiskProfile.MODERATE = Recommendation.Rec.BUY
    ∧ Recommendation.generateRuleBasedRecommendation (1/2)
        Recommendation.RiskProfile.MODERATE = Recommendation.Rec.HOLD := by
  refine ⟨?_, ?_, ?_, ?_, ?_, ?_⟩ <;>
    norm_num [Recommendation.baseRecommendation,
      Recommendation.generateRuleBasedRecommendation,
      Recommendation.adjustForRiskProfile]

/-- C3: under the deployed queue configuration a message whose processing
throws on each delivery attempt is delivered at most `maxReceiveCount = 3`
times; from the third failed attempt on it sits in the dead-letter queue
(retention 7 days) with exactly 3 deliveries, so it is never delivered a
4th time; and the 360-second visibility timeout strictly exceeds the
worker's 300-second timeout. -/
theorem c3_dlq_after_three_failures :
    (∀ k, (AnalysisQueue.runFailedAttempts AnalysisQueue.userAnalysisQueue
        k).deliveries ≤ AnalysisQueue.userAnalysisQueue.maxReceiveCount)
    ∧ (∀ k, 3 ≤ k →
        (AnalysisQueue.runFailedAttempts AnalysisQueue.userAnalysisQueue
          k).inDlq = true
        ∧ (AnalysisQueue.runFailedAttempts AnalysisQueue.userAnalysisQueue
          k).deliveries = 3)
    ∧ AnalysisQueue.workerTimeoutSeconds <
        AnalysisQueue.userAnalysisQueue.visibilityTimeoutSeconds
    ∧ AnalysisQueue.userAnalysisQueue.dlqRetentionDays = 7 := by
  refine ⟨?_, ?_, by decide, by decide⟩
  · intro k
    rw [runFailedAttempts_closed_form]
    split <;> simp [AnalysisQueue.userAnalysisQueue] <;> omega
  · intro k hk
    rw [runFailedAttempts_closed_form]
    have : ¬ k < 3 := by omega
    simp [this]

/-- Witness for C3 at a concrete attempt count: after 10 always-failing
attempts the message is in the DLQ with exactly 3 deliveries. -/
theorem c3_dlq_witness :
    (AnalysisQueue.runFailedAttempts AnalysisQueue.userAnalysisQueue
      10).inDlq = true
    ∧ (AnalysisQueue.runFailedAttempts AnalysisQueue.userAnalysisQueue
      10).deliveries = 3 :=
  c3_dlq_after_three_failures.2.1 10 (by decide)

/-- C1: evaluation of the pipeline's call timeline at a failing input.  At
the default 50 ms pacing of `getBatchQuotes` (with zero network latency), a
61-symbol list produces 61 upstream calls inside a single rolling 60-second
window, exceeding the 60-calls-per-minute budget the code's own comments
cite; and one run of the scheduled batch-update handler over a 100-symbol
universe places 84 calls (54 paced at 1100 ms plus the 30 concurrent
market-summary sampling calls) inside one 60-second window. -/
theorem c1_rate_limit_exceeded_at_default_pacing :
    Finnhub.callsWithin
      (Finnhub.gbqCallTimes (fun _ => 0) 61 Finnhub.defaultDelayMs) 0 60000
      = 61
    ∧ 60 < 61
    ∧ Finnhub.callsWithin (FinnhubBatch.handlerCallTimes 100) 50001 60000 = 84
    ∧ 60 < 84 := by
  refine ⟨by decide, by decide, by decide, by decide⟩

/-- C10: evaluation of both workers on a task whose stock lookups resolve
zero quotes.  The part_018 worker throws (JS `reduce` of an empty array
with no initial value raises a TypeError) and reports the message as a
batch item failure instead of completing successfully; the part_017 worker
returns success as the claim states. -/
theorem c10_worker18_throws_on_zero_quotes :
    Worker18.processUserAnalysis (fun _ => none)
        ⟨Except.ok "analysis", Except.ok (), Except.ok ()⟩
        ⟨"m1", "u1", "user at example dot com", ["AAPL"]⟩
      = .error .typeError
    ∧ Worker18.handlerBatchItemFailures (fun _ => none)
        ⟨Except.ok "analysis", Except.ok (), Except.ok ()⟩
        [⟨"m1", "u1", "user at example dot com", ["AAPL"]⟩] = ["m1"]
    ∧ Worker17.processUserAnalysis (fun _ => none) (Except.ok ())
        ⟨"m1", "u1", "user at example dot com", ["AAPL"]⟩
      = .ok (none, []) := by
  refine ⟨rfl, rfl, rfl⟩

/-- C7 counterexample: a synthesized quote of `getMockStockPrice`
(part_011), at the reachable draws r1 = 3/10, r2 = 9/10 (base price 200,
change 4), satisfies changeAbs = currentPrice - previousClose but computes
changePct with the current price, not the previous close, as denominator:
it is 2 where changeAbs/previousClose*100 = 100/49, an error of 2/49 — far
beyond the 1e-6 tolerance. -/
theorem c7_mock_changepct_violates_invariant :
    (AmplifyBatch.getMockStockPrice "S" (3/10) (9/10)).change
      = (AmplifyBatch.getMockStockPrice "S" (3/10) (9/10)).price
        - (AmplifyBatch.getMockStockPrice "S" (3/10) (9/10)).previousClose
    ∧ |(AmplifyBatch.getMockStockPrice "S" (3/10) (9/10)).changePercent
        - (AmplifyBatch.getMockStockPrice "S" (3/10) (9/10)).change
          / (AmplifyBatch.getMockStockPrice "S" (3/10) (9/10)).previousClose
          * 100|
      > 1 / 1000000 := by
  constructor
  · norm_num [AmplifyBatch.getMockStockPrice]
  · norm_num [AmplifyBatch.getMockStockPrice, abs_sub_lt_iff, abs_of_neg,
      abs_of_pos]

/-- C7 amended: quotes built by the part_010 fetch success path satisfy
both identities exactly (hence within any positive tolerance), and
part_011's synthesized mock quotes still satisfy the changeAbs identity;
only the mock changePct relation fails (see the counterexample). -/
theorem c7_fetched_quote_invariant (symbol : String) (m : YahooBatch.YahooMeta)
    (s : String) (r1 r2 : ℚ) :
    (YahooBatch.fetchedQuote symbol m).change
      = (YahooBatch.fetchedQuote symbol m).price
        - (YahooBatch.fetchedQuote symbol m).previousClose
    ∧ (YahooBatch.fetchedQuote symbol m).changePercent
      = (YahooBatch.fetchedQuote symbol m).change
        / (YahooBatch.fetchedQuote symbol m).previousClose * 100
    ∧ (AmplifyBatch.getMockStockPrice s r1 r2).change
      = (AmplifyBatch.getMockStockPrice s r1 r2).price
        - (AmplifyBatch.getMockStockPrice s r1 r2).previousClose := by
  refine ⟨rfl, rfl, ?_⟩
  simp [AmplifyBatch.getMockStockPrice]

/-- Every price record is counted by exactly one of the three
sign-of-change buckets, so the bucket counts sum to the list length. -/
lemma countP_change_trichotomy (l : List AmplifyBatch.StockPrice) :
    l.countP (fun p => decide (0 < p.changePercent))
      + l.countP (fun p => decide (p.changePercent < 0))
      + l.countP (fun p => decide (p.changePercent = 0)) = l.length := by
  induction l with
  | nil => simp
  | cons p t ih =>
    simp only [List.countP_cons, List.length_cons]
    rcases lt_trichotomy p.changePercent 0 with h | h | h
    · have h1 : ¬ 0 < p.changePercent := not_lt.mpr h.le
      have h2 : p.changePercent ≠ 0 := ne_of_lt h
      simp [h, h1, h2]
      omega
    · have h1 : ¬ 0 < p.changePercent := by simp [h]
      have h2 : ¬ p.changePercent < 0 := by simp [h]
      simp [h, h1, h2]
      omega
    · have h1 : ¬ p.changePercent < 0 := not_lt.mpr h.le
      have h2 : p.changePercent ≠ 0 := ne_of_gt h
      simp [h, h1, h2]
      omega

/-- C6 counterexample: a run over a universe of 31 symbols on which every
fetch succeeds (with percent change +1).  The full batch-update pass
successfully fetches 31 symbols, but the persisted summary satisfies
`gainers + losers + unchanged = 30`: the summary is computed only from the
separate 30-symbol sampling pass, not from the symbols fetched in the run. -/
theorem c6_summary_counts_only_sample :
    (FinnhubBatch.summaryOfRun
        (fun s => some ⟨s, 101, 1, 1, 0, none, 102, 100, 100, 100⟩)
        (List.replicate 31 "S")).gainers
      + (FinnhubBatch.summaryOfRun
        (fun s => some ⟨s, 101, 1, 1, 0, none, 102, 100, 100, 100⟩)
        (List.replicate 31 "S")).losers
      + (FinnhubBatch.summaryOfRun
        (fun s => some ⟨s, 101, 1, 1, 0, none, 102, 100, 100, 100⟩)
        (List.replicate 31 "S")).unchanged = 30
    ∧ (FinnhubBatch.batchFetchResults
        (fun s => some ⟨s, 101, 1, 1, 0, none, 102, 100, 100, 100⟩)
        (List.replicate 31 "S")).length = 31
    ∧ (30 : Nat) ≠ 31 := by
  refine ⟨by decide, by decide, by decide⟩

/-- C6 amended: for every run of the scheduled refresh handler, the
persisted summary satisfies `gainers + losers + unchanged = ` the number of
quotes resolved by the run's 30-symbol sampling pass (the counts
classifying those resolved quotes by changePct > 0, < 0, = 0) — not the
number of symbols successfully fetched in the whole run. -/
theorem c6_summary_counts_sampled_fetches
    (fetchR : String → Option AmplifyBatch.StockPrice) (syms : List String) :
    (FinnhubBatch.summaryOfRun fetchR syms).gainers
      + (FinnhubBatch.summaryOfRun fetchR syms).losers
      + (FinnhubBatch.summaryOfRun fetchR syms).unchanged
      = ((syms.take 30).filterMap fetchR).length := by
  simp only [FinnhubBatch.summaryOfRun]
  exact countP_change_trichotomy ((syms.take 30).filterMap fetchR)

/-- C5 counterexample: part_011's Finnhub `fetchStockPrice` applies no
uniform policy to failed symbols: a thrown network error yields a
synthesized placeholder record, while a 200-response whose current price
`c` is 0 (Finnhub's shape for an unknown symbol) is skipped (null) —
so neither every failure is skipped nor every failure placeholdered.
Moreover the policy also differs between fetchers: `getBatchQuotes` skips
every failure while the part_011 DynamoDB fetcher placeholders every one. -/
theorem c5_no_uniform_failure_policy :
    ¬ AmplifyBatch.uniformFailurePolicy
    ∧ (AmplifyBatch.fetchStockPrice "S" .netError 0 0).isSome = true
    ∧ AmplifyBatch.fetchStockPrice "S" (.okJson ⟨0, 0, 0, 0, 0, 0, 0, 0⟩) 0 0
      = none
    ∧ Finnhub.getBatchQuotes (fun _ => none) ["AAPL"] = []
    ∧ (FinnhubBatch.fetchStockPrice "AAPL" .netError
        ⟨100, 1, 1, 0, 101, 99, 100, 99⟩).isSome = true := by
  refine ⟨?_, by decide, by decide, rfl, by decide⟩
  intro h
  rcases h with h | h
  · have := h .netError 0 0 trivial
    simp [AmplifyBatch.fetchStockPrice] at this
  · have := h (.okJson ⟨0, 0, 0, 0, 0, 0, 0, 0⟩) 0 0 rfl
    simp [AmplifyBatch.fetchStockPrice] at this

/-- C5 amended: failure isolation holds — in `getBatchQuotes` one symbol's
failure never aborts the batch (every symbol whose own fetch succeeds still
appears in the result, whatever the other symbols' outcomes, and no record
is invented for a failed symbol: failures are uniformly skipped there);
the part_011 DynamoDB fetcher instead uniformly synthesizes a placeholder
(it never returns null).  But the policies differ between fetchers and
part_011's Amplify fetcher mixes the two (see the counterexample), so no
single explicit uniform policy governs failed symbols. -/
theorem c5_failure_isolation
    (outcome : String → Option FinnhubQuote) (syms : List String) :
    (∀ s q, s ∈ syms → outcome s = some q →
      (s, Finnhub.quoteToStockData s q) ∈ Finnhub.getBatchQuotes outcome syms)
    ∧ (∀ s r, (s, r) ∈ Finnhub.getBatchQuotes outcome syms →
        outcome s = some (⟨r.currentPrice, r.priceChange, r.percentChange,
          r.highPrice, r.lowPrice, r.openPrice, r.previousClose,
          r.timestamp⟩ : FinnhubQuote))
    ∧ (∀ s out d, (FinnhubBatch.fetchStockPrice s out d).isSome = true) := by
  refine ⟨?_, ?_, ?_⟩
  · intro s q hs hq
    induction syms with
    | nil => simp at hs
    | cons a rest ih =>
      rcases List.mem_cons.mp hs with rfl | hmem
      · simp [Finnhub.getBatchQuotes, hq]
      · cases h : outcome a with
        | none => simpa [Finnhub.getBatchQuotes, h] using ih hmem
        | some qa =>
          simp only [Finnhub.getBatchQuotes, h, List.mem_cons]
          exact Or.inr (ih hmem)
  · intro s r hmem
    induction syms with
    | nil => simp [Finnhub.getBatchQuotes] at hmem
    | cons a rest ih =>
      cases h : outcome a with
      | none =>
        rw [Finnhub.getBatchQuotes, h] at hmem
        exact ih hmem
      | some qa =>
        rw [Finnhub.getBatchQuotes, h] at hmem
        rcases List.mem_cons.mp hmem with heq | hmem2
        · obtain ⟨rfl, rfl⟩ := Prod.mk.injEq .. ▸ Prod.mk.inj heq
          simpa [Finnhub.quoteToStockData] using h
        · exact ih hmem2
  · intro s out d
    cases out with
    | okJson q =>
      by_cases hq : q.c = 0 <;> simp [FinnhubBatch.fetchStockPrice, hq]
    | httpError status => simp [FinnhubBatch.fetchStockPrice]
    | netError => simp [FinnhubBatch.fetchStockPrice]

/-- Witness for C5 at concrete inputs: with AAPL failing and MSFT
succeeding, MSFT's record is still produced, its fields round-trip to the
upstream quote, and the DynamoDB fetcher resolves a record for a failed
symbol. -/
theorem c5_failure_isolation_witness :
    (("MSFT", Finnhub.quoteToStockData "MSFT" ⟨10, 1, 1, 11, 9, 10, 9, 7⟩) ∈
      Finnhub.getBatchQuotes
        (fun s => if s = "MSFT" then some ⟨10, 1, 1, 11, 9, 10, 9, 7⟩ else none)
        ["AAPL", "MSFT"])
    ∧ (FinnhubBatch.fetchStockPrice "AAPL" .netError
        ⟨100, 1, 1, 0, 101, 99, 100, 99⟩).isSome = true := by
  refine ⟨?_, ?_⟩
  · exact (c5_failure_isolation
      (fun s => if s = "MSFT" then some ⟨10, 1, 1, 11, 9, 10, 9, 7⟩ else none)
      ["AAPL", "MSFT"]).1 "MSFT" ⟨10, 1, 1, 11, 9, 10, 9, 7⟩
      (by decide) (by decide)
  · exact (c5_failure_isolation (fun _ => none) []).2.2 "AAPL" .netError
      ⟨100, 1, 1, 0, 101, 99, 100, 99⟩

/-- The pagination loop of the orchestrator accumulates exactly the
eligible records of the concatenation of all pages. -/
lemma getUsers_eq_filter_flatten
    (pages : List (List Orchestrator.UserPreference)) :
    Orchestrator.getUsersForDailyAnalysis pages
      = pages.flatten.filter Orchestrator.eligible := by
  induction pages with
  | nil => rfl
  | cons page rest ih =>
    simp [Orchestrator.getUsersForDailyAnalysis, List.filter_append, ih]

/-- Chunking a list and flattening the chunks gives back the list. -/
lemma createBatches_flatten (l : List α) (n : Nat) (hn : n ≠ 0) :
    (Orchestrator.createBatches l n).flatten = l := by
  rw [Orchestrator.createBatches]
  by_cases h : l.isEmpty = true
  · simp [h, List.isEmpty_iff.mp h]
  · have hcond : ¬ (l.isEmpty = true ∨ n = 0) := by simp [h, hn]
    rw [dif_neg hcond]
    rw [List.flatten_cons, createBatches_flatten (l.drop n) n hn,
      List.take_append_drop]
termination_by l.length
decreasing_by
  simp only [List.length_drop]
  have hl : 0 < l.length := by
    cases l with
    | nil => simp at h
    | cons a t => simp
  omega

/-- Every chunk produced by `createBatches` has at most `n` elements. -/
lemma createBatches_mem_length_le (l : List α) (n : Nat) (b : List α)
    (hb : b ∈ Orchestrator.createBatches l n) : b.length ≤ n := by
  rw [Orchestrator.createBatches] at hb
  by_cases h : l.isEmpty = true ∨ n = 0
  · rw [dif_pos h] at hb
    simp at hb
  · rw [dif_neg h] at hb
    rcases List.mem_cons.mp hb with rfl | hb2
    · simpa using List.length_take_le n l
    · exact createBatches_mem_length_le (l.drop n) n b hb2
termination_by l.length
decreasing_by
  push_neg at h
  simp only [List.length_drop]
  have hl : 0 < l.length := by
    cases l with
    | nil => simp at h
    | cons a t => simp
  omega

/-- C2: one orchestrator run enqueues exactly the messages
`mkMessage now u` for the eligible records `u` (dailyInsightsOptIn true and
non-empty selectedStocks) of the full paginated result set, in order — so
exactly one message per eligible record and zero per ineligible record —
and every `SendMessageBatch` submission carries at most 10 messages. -/
theorem c2_orchestrator_enqueues_exactly_eligible
    (now : String) (pages : List (List Orchestrator.UserPreference)) :
    Orchestrator.enqueuedMessages now pages
      = (pages.flatten.filter Orchestrator.eligible).map
          (Orchestrator.mkMessage now)
    ∧ ∀ b ∈ Orchestrator.sentBatches now pages, b.length ≤ 10 := by
  constructor
  · rw [Orchestrator.enqueuedMessages, Orchestrator.sentBatches,
      ← List.map_flatten, createBatches_flatten _ 10 (by decide),
      getUsers_eq_filter_flatten]
  · intro b hb
    rw [Orchestrator.sentBatches] at hb
    obtain ⟨bb, hbb, rfl⟩ := List.mem_map.mp hb
    simpa using createBatches_mem_length_le _ 10 bb hbb

/-- Witness for C2 at a concrete store (two pages holding an opted-in user
with stocks, an opted-out user with stocks, and an opted-in user without
stocks): the enqueued messages are exactly one message per eligible record,
and the concrete submitted batch has at most 10 entries. -/
theorem c2_orchestrator_witness :
    (Orchestrator.enqueuedMessages "t0"
        [[⟨"u1", "e1", true, ["AAPL"]⟩, ⟨"u2", "e2", false, ["MSFT"]⟩],
         [⟨"u3", "e3", true, []⟩]]
      = (([[⟨"u1", "e1", true, ["AAPL"]⟩, ⟨"u2", "e2", false, ["MSFT"]⟩],
          [⟨"u3", "e3", true, []⟩]] :
            List (List Orchestrator.UserPreference)).flatten.filter
          Orchestrator.eligible).map (Orchestrator.mkMessage "t0"))
    ∧ ([(⟨"u1", "u1", "e1", ["AAPL"], "t0"⟩ : Orchestrator.SqsMessage)]).length
        ≤ 10 :=
  ⟨(c2_orchestrator_enqueues_exactly_eligible "t0"
      [[⟨"u1", "e1", true, ["AAPL"]⟩, ⟨"u2", "e2", false, ["MSFT"]⟩],
       [⟨"u3", "e3", true, []⟩]]).1,
   (c2_orchestrator_enqueues_exactly_eligible "t0"
      [[⟨"u1", "e1", true, ["AAPL"]⟩, ⟨"u2", "e2", false, ["MSFT"]⟩],
       [⟨"u3", "e3", true, []⟩]]).2
     [⟨"u1", "u1", "e1", ["AAPL"], "t0"⟩]
     (by simp [Orchestrator.sentBatches, Orchestrator.createBatches,
       Orchestrator.getUsersForDailyAnalysis, Orchestrator.eligible,
       Orchestrator.mkMessage])⟩

/-- Folding the gainer reducer keeps an element of the list and the result
dominates every element's changePercent. -/
lemma foldl_pickGainer_max (t : List Worker18.StockData)
    (x : Worker18.StockData) :
    t.foldl Worker18.pickGainer x ∈ x :: t
    ∧ ∀ y ∈ x :: t,
        y.changePercent ≤ (t.foldl Worker18.pickGainer x).changePercent := by
  induction t generalizing x with
  | nil => simp
  | cons a t ih =>
    simp only [List.foldl_cons]
    have step : Worker18.pickGainer x a = x ∨ Worker18.pickGainer x a = a := by
      rw [Worker18.pickGainer]
      split <;> simp
    have hle : x.changePercent ≤ (Worker18.pickGainer x a).changePercent
        ∧ a.changePercent ≤ (Worker18.pickGainer x a).changePercent := by
      rw [Worker18.pickGainer]
      split <;> constructor <;> first | rfl | linarith
    obtain ⟨hmem, hmax⟩ := ih (Worker18.pickGainer x a)
    constructor
    · rcases List.mem_cons.mp hmem with heq | hmem2
      · rw [heq]
        rcases step with hs | hs <;> rw [hs] <;> simp
      · simp [hmem2]
    · intro y hy
      rcases List.mem_cons.mp hy with rfl | hy2
      · exact le_trans hle.1 (hmax _ (List.mem_cons.mpr (Or.inl rfl)))
      · rcases List.mem_cons.mp hy2 with rfl | hy3
        · exact le_trans hle.2 (hmax _ (List.mem_cons.mpr (Or.inl rfl)))
        · exact hmax y (List.mem_cons.mpr (Or.inr hy3))

/-- Folding the loser reducer keeps an element of the list and the result
is below every element's changePercent. -/
lemma foldl_pickLoser_min (t : List Worker18.StockData)
    (x : Worker18.StockData) :
    t.foldl Worker18.pickLoser x ∈ x :: t
    ∧ ∀ y ∈ x :: t,
        (t.foldl Worker18.pickLoser x).changePercent ≤ y.changePercent := by
  induction t generalizing x with
  | nil => simp
  | cons a t ih =>
    simp only [List.foldl_cons]
    have step : Worker18.pickLoser x a = x ∨ Worker18.pickLoser x a = a := by
      rw [Worker18.pickLoser]
      split <;> simp
    have hle : (Worker18.pickLoser x a).changePercent ≤ x.changePercent
        ∧ (Worker18.pickLoser x a).changePercent ≤ a.changePercent := by
      rw [Worker18.pickLoser]
      split <;> constructor <;> first | rfl | linarith
    obtain ⟨hmem, hmin⟩ := ih (Worker18.pickLoser x a)
    constructor
    · rcases List.mem_cons.mp hmem with heq | hmem2
      · rw [heq]
        rcases step with hs | hs <;> rw [hs] <;> simp
      · simp [hmem2]
    · intro y hy
      rcases List.mem_cons.mp hy with rfl | hy2
      · exact le_trans (hmin _ (List.mem_cons.mpr (Or.inl rfl))) hle.1
      · rcases List.mem_cons.mp hy2 with rfl | hy3
        · exact le_trans (hmin _ (List.mem_cons.mpr (Or.inl rfl))) hle.2
        · exact hmin y (List.mem_cons.mpr (Or.inr hy3))

/-- `saveAnalysisHistory` on an empty quote list always throws (the
underlying `reduce` of an empty array raises a TypeError). -/
lemma saveAnalysisHistory_nil (save : Except JsError Unit)
    (u a : String) :
    Worker18.saveAnalysisHistory save u a [] = .error .typeError := rfl

/-- Computation rule of `saveAnalysisHistory` on a non-empty quote list:
the write's thrown error propagates, and on success the persisted record
carries the folded top gainer and top loser. -/
lemma saveAnalysisHistory_cons (save : Except JsError Unit)
    (u a : String) (x : Worker18.StockData) (t : List Worker18.StockData) :
    Worker18.saveAnalysisHistory save u a (x :: t) =
      match save with
      | .error e => .error e
      | .ok _ => .ok ⟨u, a, (x :: t).length,
          (t.foldl Worker18.pickGainer x).symbol,
          (t.foldl Worker18.pickLoser x).symbol⟩ := by
  cases save <;> rfl

/-- C8 counterexample: the part_017 worker records topGainer and topLoser
positionally.  With AAPL resolving at +1 percent and MSFT at +5 percent,
the persisted AnalysisHistory record carries topGainer = AAPL and
topLoser = MSFT, although MSFT has the maximum changePercent (5 > 1) — the
recorded topGainer is not the symbol with maximum changePercent among the
resolved quotes. -/
theorem c8_worker17_topgainer_positional :
    Worker17.processUserAnalysis
        (fun s => if s = "AAPL" then some ⟨"AAPL", 1⟩
          else if s = "MSFT" then some ⟨"MSFT", 5⟩ else none)
        (Except.ok ())
        ⟨"m1", "u1", "e1", ["AAPL", "MSFT"]⟩
      = .ok (some ⟨"u1", 2, some "AAPL", some "MSFT", false⟩, [])
    ∧ (1 : ℚ) < 5 := by
  refine ⟨rfl, by norm_num⟩

/-- C8 amended: in the part_018 worker the derived stats are computed from
the resolved quotes — whenever `saveAnalysisHistory` persists a record, its
topGainer is the symbol of a resolved quote of maximum changePercent and
its topLoser the symbol of one of minimum changePercent.  (The part_017
worker instead records them positionally; see the counterexample.) -/
theorem c8_worker18_topgainer_is_max
    (save : Except JsError Unit) (userId analysisText : String)
    (stockData : List Worker18.StockData) (hist : Worker18.HistoryItem)
    (hok : Worker18.saveAnalysisHistory save userId analysisText stockData
      = .ok hist) :
    (∃ g ∈ stockData, hist.topGainer = g.symbol
      ∧ ∀ x ∈ stockData, x.changePercent ≤ g.changePercent)
    ∧ (∃ w ∈ stockData, hist.topLoser = w.symbol
      ∧ ∀ x ∈ stockData, w.changePercent ≤ x.changePercent) := by
  cases stockData with
  | nil =>
    rw [saveAnalysisHistory_nil] at hok
    exact absurd hok (by simp)
  | cons x t =>
    have hg := foldl_pickGainer_max t x
    have hl := foldl_pickLoser_min t x
    rw [saveAnalysisHistory_cons] at hok
    cases save with
    | error e => simp at hok
    | ok u =>
      have hok2 : hist = ⟨userId, analysisText, (x :: t).length,
          (t.foldl Worker18.pickGainer x).symbol,
          (t.foldl Worker18.pickLoser x).symbol⟩ := by
        simpa using hok.symm
      subst hok2
      exact ⟨⟨t.foldl Worker18.pickGainer x, hg.1, rfl, hg.2⟩,
        ⟨t.foldl Worker18.pickLoser x, hl.1, rfl, hl.2⟩⟩

/-- Witness for C8 at a concrete run: with resolved quotes AAPL at +1 and
MSFT at +5, the part_018 history record's topGainer is the symbol of a
maximum-changePercent quote and its topLoser of a minimum one. -/
theorem c8_worker18_witness :
    (∃ g ∈ [(⟨"AAPL", 100, 99, 1, 0, 101, 99, 0⟩ : Worker18.StockData),
            ⟨"MSFT", 100, 95, 5, 0, 101, 99, 0⟩],
      (⟨"u1", "a", 2, "MSFT", "AAPL"⟩ : Worker18.HistoryItem).topGainer
          = g.symbol
        ∧ ∀ x ∈ [(⟨"AAPL", 100, 99, 1, 0, 101, 99, 0⟩ : Worker18.StockData),
            ⟨"MSFT", 100, 95, 5, 0, 101, 99, 0⟩],
            x.changePercent ≤ g.changePercent)
    ∧ (∃ w ∈ [(⟨"AAPL", 100, 99, 1, 0, 101, 99, 0⟩ : Worker18.StockData),
            ⟨"MSFT", 100, 95, 5, 0, 101, 99, 0⟩],
      (⟨"u1", "a", 2, "MSFT", "AAPL"⟩ : Worker18.HistoryItem).topLoser
          = w.symbol
        ∧ ∀ x ∈ [(⟨"AAPL", 100, 99, 1, 0, 101, 99, 0⟩ : Worker18.StockData),
            ⟨"MSFT", 100, 95, 5, 0, 101, 99, 0⟩],
            w.changePercent ≤ x.changePercent) :=
  c8_worker18_topgainer_is_max (Except.ok ()) "u1" "a"
    [⟨"AAPL", 100, 99, 1, 0, 101, 99, 0⟩, ⟨"MSFT", 100, 95, 5, 0, 101, 99, 0⟩]
    ⟨"u1", "a", 2, "MSFT", "AAPL"⟩ (by rfl)

/-- Full case analysis of the part_018 `processUserAnalysis`: an empty
resolved-quote list throws a TypeError, and otherwise the first thrown step
outcome (LLM, history write, email send — in pipeline order) propagates;
only when all succeed does the task report success. -/
lemma processUserAnalysis_eq (store : String → Option Worker18.MarketItem)
    (ext : Worker18.ExternalOutcomes) (r : SQSRecord) :
    Worker18.processUserAnalysis store ext r =
      match Worker18.fetchStockData store r.selectedStocks,
          ext.llm, ext.save, ext.email with
      | [], _, _, _ => .error .typeError
      | _ :: _, .error e, _, _ => .error e
      | _ :: _, .ok _, .error e, _ => .error e
      | _ :: _, .ok _, .ok _, .error e => .error e
      | _ :: _, .ok _, .ok _, .ok _ =>
          .ok ⟨r.userId, r.selectedStocks.length, true⟩ := by
  rcases ext with ⟨llm, save, email⟩
  cases h : Worker18.fetchStockData store r.selectedStocks <;>
    cases llm <;> cases save <;> cases email <;>
    simp only [Worker18.processUserAnalysis,
      Worker18.generatePortfolioAnalysis, Worker18.saveAnalysisHistory,
      Worker18.sendAnalysisEmail, h] <;> rfl

/-- C4 counterexample: the part_017 worker acknowledges a task as
successful although its email was not sent.  With one resolved quote and a
successful store write, `processUserAnalysis` returns success, the list of
emails actually sent is empty (step 5 only logs), and the persisted record
carries `emailSent = false`. -/
theorem c4_worker17_success_without_email :
    Worker17.processUserAnalysis
        (fun s => if s = "AAPL" then some ⟨"AAPL", 2⟩ else none)
        (Except.ok ()) ⟨"m1", "u1", "e1", ["AAPL"]⟩
      = .ok (some ⟨"u1", 1, some "AAPL", some "AAPL", false⟩, []) := rfl

/-- C4 amended: in the part_018 worker, a task is reported successful only
when every step including the email send succeeded (`emailSent = true` in
the result); when the email-send step throws, the whole task fails and the
handler reports the message as a batch item failure, making it eligible for
redelivery.  (The part_017 worker instead never sends email at all and
acknowledges tasks without one; see the counterexample.) -/
theorem c4_worker18_email_failure_fails_task
    (store : String → Option Worker18.MarketItem)
    (ext : Worker18.ExternalOutcomes) (r : SQSRecord) :
    (∀ res, Worker18.processUserAnalysis store ext r = .ok res →
      ext.email = .ok () ∧ res.emailSent = true)
    ∧ (∀ e, ext.email = .error e →
        ∀ res, Worker18.processUserAnalysis store ext r ≠ .ok res)
    ∧ (∀ e, Worker18.processUserAnalysis store ext r = .error e →
        Worker18.handlerBatchItemFailures store ext [r] = [r.messageId]) := by
  refine ⟨?_, ?_, ?_⟩
  · intro res hres
    rcases ext with ⟨llm, save, email⟩
    rw [processUserAnalysis_eq] at hres
    cases hf : Worker18.fetchStockData store r.selectedStocks <;>
      rw [hf] at hres <;> cases llm <;> cases save <;> cases email <;>
      (try dsimp only at hres) <;>
      first
        | exact Except.noConfusion hres
        | exact ⟨rfl, by cases Except.ok.inj hres; rfl⟩
  · intro e he res hres
    rcases ext with ⟨llm, save, email⟩
    replace he : email = .error e := he
    subst he
    rw [processUserAnalysis_eq] at hres
    cases hf : Worker18.fetchStockData store r.selectedStocks <;>
      rw [hf] at hres <;> cases llm <;> cases save <;> simp_all
  · intro e he
    simp [Worker18.handlerBatchItemFailures, he]

/-- Witness for C4 at concrete inputs: with a resolved quote, a successful
LLM call and history write, but a throwing email send, the part_018 task
does not succeed and the handler reports the message for redelivery. -/
theorem c4_worker18_witness :
    Worker18.processUserAnalysis
        (fun s => if s = "AAPL" then some ⟨101, 100, 0, 102, 99, 0⟩ else none)
        ⟨Except.ok "analysis", Except.ok (), Except.error (.thrown "ses")⟩
        ⟨"m1", "u1", "e1", ["AAPL"]⟩
      ≠ .ok ⟨"u1", 1, true⟩
    ∧ Worker18.handlerBatchItemFailures
        (fun s => if s = "AAPL" then some ⟨101, 100, 0, 102, 99, 0⟩ else none)
        ⟨Except.ok "analysis", Except.ok (), Except.error (.thrown "ses")⟩
        [⟨"m1", "u1", "e1", ["AAPL"]⟩] = ["m1"] :=
  ⟨(c4_worker18_email_failure_fails_task
      (fun s => if s = "AAPL" then some ⟨101, 100, 0, 102, 99, 0⟩ else none)
      ⟨Except.ok "analysis", Except.ok (), Except.error (.thrown "ses")⟩
      ⟨"m1", "u1", "e1", ["AAPL"]⟩).2.1 (.thrown "ses") rfl ⟨"u1", 1, true⟩,
   (c4_worker18_email_failure_fails_task
      (fun s => if s = "AAPL" then some ⟨101, 100, 0, 102, 99, 0⟩ else none)
      ⟨Except.ok "analysis", Except.ok (), Except.error (.thrown "ses")⟩
      ⟨"m1", "u1", "e1", ["AAPL"]⟩).2.2 (.thrown "ses") (by rfl)⟩

end StockAdvisor
